import Mathlib

/-!
Shallow embedding of the LogDevice NodesConfigurationManager (NCM)
state machine, translated from
logdevice/common/configuration/nodes/NodesConfigurationManager.cpp,
together with the SequencerWorkflow move-assignment operator from
logdevice/admin/maintenance/SequencerWorkflow.h.

Machine integers (membership versions, flag bitsets) are modelled as
Nat. The serialization codec, the update payload semantics and the
backing store are external collaborators of the NCM and are taken as
parameters of the relevant definitions. Fallible operations return
Option or Except; a debug assertion that would abort is modelled by
returning none.
-/

namespace LogDevice

/-- Error statuses (the E:: codes) surfaced through NCM callbacks. -/
inductive Status where
  | OK
  | SHUTDOWN
  | ACCESS
  | INVALID_PARAM
  | VERSION_MISMATCH
  | BADMSG
  | AGAIN
  | FAILED
  deriving DecidableEq, Repr

/-- membership::MembershipVersion::EMPTY_VERSION is version 0
(membership::MembershipVersion::Type, a 64-bit version number, is
modelled as Nat throughout). -/
def EMPTY_VERSION : Nat := 0

/-- NodesConfiguration: an immutable value with a monotonic version and
an opaque node/membership payload (the payload schema is out of scope;
it is modelled as a single Nat). -/
structure NodesConfiguration where
  version : Nat
  payload : Nat
  deriving DecidableEq, Repr

def NodesConfiguration.getVersion (nc : NodesConfiguration) : Nat :=
  nc.version

/-- NodesConfiguration::withVersion sets the version field. -/
def NodesConfiguration.withVersion (nc : NodesConfiguration) (v : Nat) :
    NodesConfiguration :=
  { nc with version := v }

/-- A default-constructed NodesConfiguration, with version
EMPTY_VERSION = 0. -/
def emptyNC : NodesConfiguration :=
  { version := EMPTY_VERSION, payload := 0 }

/-- NodesConfiguration::Update, the opaque mutation value consumed by
applyUpdate. Its semantics are external: applyUpdate is a parameter
below. -/
structure NodesConfiguration.Update where
  id : Nat
  deriving DecidableEq, Repr

/-- A serialized configuration blob (std::string of bytes). -/
abbrev Blob := List Nat

/-! ### OperationMode

Translated from OperationMode::forClient / forTooling / forNodeRoles /
upgradeToProposer / is* / isValid / setFlags / hasFlags / onlyHasFlags
in the NodesConfigurationManager source. The numeric values of the
kIs* flag constants live in the header, which is not among the given
sources; they are modelled from the spec as six distinct single bits
(the source only requires that the six flags be independent bits of
the mode_ bitset). -/

structure OperationMode where
  mode_ : Nat
  deriving DecidableEq, Repr

namespace OperationMode

def kIsProposer : Nat := 1
def kIsCoordinator : Nat := 2
def kIsClient : Nat := 4
def kIsTooling : Nat := 8
def kIsStorageMember : Nat := 16
def kIsSequencer : Nat := 32

/-- A default-constructed OperationMode has no flags set. -/
def empty : OperationMode := { mode_ := 0 }

/-- OperationMode::setFlags: mode_ |= flags. -/
def setFlags (m : OperationMode) (flags : Nat) : OperationMode :=
  { m with mode_ := m.mode_ ||| flags }

/-- OperationMode::hasFlags: (mode_ & flags) != 0. -/
def hasFlags (m : OperationMode) (flags : Nat) : Bool :=
  (m.mode_ &&& flags) != 0

/-- OperationMode::onlyHasFlags: mode_ == flags. -/
def onlyHasFlags (m : OperationMode) (flags : Nat) : Bool :=
  m.mode_ == flags

/-- OperationMode::forClient. -/
def forClient : OperationMode :=
  setFlags empty kIsClient

/-- OperationMode::forTooling: sets kIsTooling | kIsProposer. -/
def forTooling : OperationMode :=
  setFlags empty (kIsTooling ||| kIsProposer)

/-- NodeServiceDiscovery::RoleSet restricted to the two roles the
source tests: SEQUENCER and STORAGE. -/
structure RoleSet where
  sequencer : Bool
  storage : Bool
  deriving DecidableEq, Repr

/-- OperationMode::forNodeRoles. -/
def forNodeRoles (roles : RoleSet) : OperationMode :=
  let m := empty
  let m := if roles.sequencer then m.setFlags kIsSequencer else m
  let m := if roles.storage then m.setFlags kIsStorageMember else m
  m

/-- OperationMode::upgradeToProposer. -/
def upgradeToProposer (m : OperationMode) : OperationMode :=
  m.setFlags kIsProposer

def isClient (m : OperationMode) : Bool := m.hasFlags kIsClient

def isClientOnly (m : OperationMode) : Bool := m.onlyHasFlags kIsClient

def isTooling (m : OperationMode) : Bool := m.hasFlags kIsTooling

def isStorageMember (m : OperationMode) : Bool := m.hasFlags kIsStorageMember

def isSequencer (m : OperationMode) : Bool := m.hasFlags kIsSequencer

def isProposer (m : OperationMode) : Bool := m.hasFlags kIsProposer

def isCoordinator (m : OperationMode) : Bool := m.hasFlags kIsCoordinator

/-- OperationMode::isValid. -/
def isValid (m : OperationMode) : Bool :=
  if m.isClient && m.isCoordinator then
    false
  else if !m.isClient && !m.isTooling && !m.isStorageMember && !m.isSequencer then
    false
  else
    true

end OperationMode

/-! ### NodesConfigurationManager state

The NCM fields touched by the pipeline and gating code: the operation
mode, the atomic shutdown flag, and the three configuration slots.
All slot transitions happen serially on the NCM thread, so they are
modelled as pure state-to-state functions. -/

structure NCMState where
  mode_ : OperationMode
  shutdown_signaled_ : Bool
  local_nodes_config_ : Option NodesConfiguration
  pending_nodes_config_ : Option NodesConfiguration
  staged_nodes_config_ : Option NodesConfiguration
  deriving DecidableEq, Repr

/-- An NCM right after construction: no configuration in any slot. -/
def NCMState.initial (mode : OperationMode) (shutdown : Bool) : NCMState :=
  { mode_ := mode
    shutdown_signaled_ := shutdown
    local_nodes_config_ := none
    pending_nodes_config_ := none
    staged_nodes_config_ := none }

namespace NodesConfigurationManager

open NodesConfiguration (Update)

/-- The file-local max helper on shared_ptr<const NodesConfiguration>:
null loses to non-null, otherwise the higher version wins and the rhs
wins ties. -/
def maxNC (lhs rhs : Option NodesConfiguration) :
    Option NodesConfiguration :=
  match lhs, rhs with
  | none, r => r
  | some l, none => some l
  | some l, some r => if l.getVersion > r.getVersion then some l else some r

/-- NodesConfigurationManager::getLatestKnownConfig: the max of local
(getConfig()), pending and staged, or a default-constructed NC when
all three are absent. -/
def getLatestKnownConfig (s : NCMState) : NodesConfiguration :=
  (maxNC (maxNC s.local_nodes_config_ s.pending_nodes_config_)
      s.staged_nodes_config_).getD emptyNC

/-- NodesConfigurationManager::hasProcessedVersion: local is present
with version >= v. -/
def hasProcessedVersion (s : NCMState) (v : Nat) : Bool :=
  match s.local_nodes_config_ with
  | none => false
  | some nc => nc.getVersion ≥ v

/-- NodesConfigurationManager::isProcessingEqualOrHigherVersion:
pending is present with version >= v. -/
def isProcessingEqualOrHigherVersion (s : NCMState) (v : Nat) : Bool :=
  match s.pending_nodes_config_ with
  | none => false
  | some nc => nc.getVersion ≥ v

/-- NodesConfigurationManager::shouldStageVersion. -/
def shouldStageVersion (s : NCMState) (v : Nat) : Bool :=
  (match s.staged_nodes_config_ with
   | none => true
   | some nc => nc.getVersion < v) &&
    !isProcessingEqualOrHigherVersion s v && !hasProcessedVersion s v

/-- NodesConfigurationManager::maybeProcessStagedConfig. Returns the
new state together with the configuration handed to the worker fan-out
(the publish to the process-wide updateable slot plus
fulfill_on_all_workers), or none when the function returned without
starting a fan-out. The early return fires when nothing is staged or
a pending configuration is already being processed; otherwise staged
is moved into pending (leaving staged empty). -/
def maybeProcessStagedConfig (s : NCMState) :
    NCMState × Option NodesConfiguration :=
  match s.staged_nodes_config_, s.pending_nodes_config_ with
  | some staged, none =>
      ({ s with
          staged_nodes_config_ := none
          pending_nodes_config_ := some staged },
        some staged)
  | _, _ => (s, none)

/-- NodesConfigurationManager::onNewConfig (the deserialized-NC
overload, running on the NCM thread). The ShardStateTracker update and
advanceIntermediaryShardStates calls between staging and
maybeProcessStagedConfig do not touch the three slots (the latter at
most posts an asynchronous update request), so the pipeline state is
fully described by staging plus maybeProcessStagedConfig. -/
def onNewConfig (s : NCMState) (new_config : NodesConfiguration) :
    NCMState :=
  if s.shutdown_signaled_ then s
  else if !shouldStageVersion s new_config.getVersion then s
  else
    (maybeProcessStagedConfig
      { s with staged_nodes_config_ := some new_config }).1

/-- NodesConfigurationManager::onProcessingFinished. The ld_checks
(pending present, version match, version not already processed) are
modelled as returning none on failure; otherwise pending is moved into
local and maybeProcessStagedConfig runs again. -/
def onProcessingFinished (s : NCMState) (new_config : NodesConfiguration) :
    Option NCMState :=
  match s.pending_nodes_config_ with
  | none => none
  | some pending =>
      if new_config.getVersion == pending.getVersion then
        if hasProcessedVersion s new_config.getVersion then none
        else
          some (maybeProcessStagedConfig
            { s with
                local_nodes_config_ := some pending
                pending_nodes_config_ := none }).1
      else none

/-! ### Proposer loop: onUpdateRequest and the store CAS callback

applyUpdate and the codec are external collaborators; they appear as
parameters. applyUpdate returns Except so a failed application carries
the thread-local err value the source passes to the callback. An empty
serialized blob signals serialization failure (the source then invokes
the callback with the thread-local err, a further parameter). -/

/-- Left-to-right application of a batch of updates, stopping at the
first failure — the loop body of onUpdateRequest. -/
def applyUpdatesFold
    (applyUpdate :
      NodesConfiguration → NodesConfiguration.Update →
        Except Status NodesConfiguration)
    (base : NodesConfiguration) :
    List NodesConfiguration.Update → Except Status NodesConfiguration
  | [] => .ok base
  | u :: us =>
      match applyUpdate base u with
      | .error e => .error e
      | .ok nc => applyUpdatesFold applyUpdate nc us

/-- Outcome of NodesConfigurationManager::onUpdateRequest up to the
point where it either invokes the callback with (status, nullptr) or
issues the store compare-and-swap write. -/
inductive UpdateReqResult where
  /-- callback(status, nullptr) was invoked; no store write issued. -/
  | callbackOnly (status : Status)
  /-- store_->updateConfig(serialized, base_version, ...) was issued
  for the given new configuration. -/
  | storeWrite (serialized : Blob) (base_version : Nat)
      (new_config : NodesConfiguration)
  deriving DecidableEq, Repr

/-- NodesConfigurationManager::onUpdateRequest (NCM thread).
serialize_err is the thread-local err after a failed serialization. -/
def onUpdateRequest
    (applyUpdate :
      NodesConfiguration → NodesConfiguration.Update →
        Except Status NodesConfiguration)
    (serialize : NodesConfiguration → Blob)
    (serialize_err : Status)
    (s : NCMState) (updates : List NodesConfiguration.Update) :
    UpdateReqResult :=
  if !s.mode_.isProposer then .callbackOnly .ACCESS
  else
    let current_config := NodesConfigurationManager.getLatestKnownConfig s
    let current_version := current_config.getVersion
    match applyUpdatesFold applyUpdate current_config updates with
    | .error e => .callbackOnly e
    | .ok nc =>
        let new_config := nc.withVersion (current_version + 1)
        let serialized := serialize new_config
        if serialized.isEmpty then .callbackOnly serialize_err
        else .storeWrite serialized current_version new_config

/-- Outcome of the store-CAS completion lambda inside onUpdateRequest:
which configuration (if any) was forwarded to the NCM pipeline through
postNewConfigRequest, and the (status, config) pair passed to the
caller callback. -/
structure CasCbOutcome where
  posted_to_ncm : Option NodesConfiguration
  cb_status : Status
  cb_nc : Option NodesConfiguration
  deriving DecidableEq, Repr

/-- The store-CAS completion lambda of onUpdateRequest. ncm_alive and
shutdown describe the weak_ptr upgrade and the shutdown flag at the
time notify_ncm_of_new_config runs; deserialize is the codec. Returns
none when the ld_assert on the deserialized stored blob fails. -/
def onStoreUpdateConfigResult
    (deserialize : Blob → Option NodesConfiguration)
    (ncm_alive shutdown : Bool)
    (new_config : NodesConfiguration)
    (status : Status) (stored_version : Nat) (stored_data : Blob) :
    Option CasCbOutcome :=
  let notify : NodesConfiguration → Option NodesConfiguration :=
    fun nc => if ncm_alive && !shutdown then some nc else none
  if status == .VERSION_MISMATCH && stored_version != EMPTY_VERSION &&
      !stored_data.isEmpty then
    match deserialize stored_data with
    | none => none
    | some stored_config =>
        some { posted_to_ncm := notify stored_config
               cb_status := .VERSION_MISMATCH
               cb_nc := some stored_config }
  else if status != .OK then
    some { posted_to_ncm := none, cb_status := status, cb_nc := none }
  else
    some { posted_to_ncm := notify new_config
           cb_status := .OK
           cb_nc := some new_config }

/-! ### Caller-facing update / overwrite and lifecycle gating -/

/-- What the caller-facing update() and overwrite() entry points do
before any request is posted or the store contacted. -/
inductive ApiAction where
  /-- callback(status, nullptr) invoked; no request posted, store
  untouched. -/
  | callbackOnly (status : Status)
  /-- an UpdateRequest with this batch was posted to the NCM thread. -/
  | postUpdateRequest (updates : List NodesConfiguration.Update)
  /-- deps()->overwrite(configuration, ...) was invoked. -/
  | storeOverwrite (configuration : NodesConfiguration)
  deriving DecidableEq, Repr

/-- NodesConfigurationManager::update (the batch overload, callable
from any thread). -/
def update (s : NCMState) (updates : List NodesConfiguration.Update) :
    ApiAction :=
  if s.shutdown_signaled_ then .callbackOnly .SHUTDOWN
  else if !s.mode_.isProposer then .callbackOnly .ACCESS
  else .postUpdateRequest updates

/-- NodesConfigurationManager::overwrite. -/
def overwrite (s : NCMState) (configuration : Option NodesConfiguration) :
    ApiAction :=
  if s.shutdown_signaled_ then .callbackOnly .SHUTDOWN
  else if !s.mode_.isTooling then .callbackOnly .ACCESS
  else
    match configuration with
    | none => .callbackOnly .INVALID_PARAM
    | some nc => .storeOverwrite nc

/-- Observable behaviour of NodesConfigurationManager::init: the
returned Bool, whether deps_->init was handed the initial
configuration, and whether the initialization latch was waited on.
init itself never touches the three configuration slots — they change
only when the posted InitRequest later runs initOnNCM / onNewConfig on
the NCM thread, which never happens when the request is not handed
over. latch_wait_result is the outcome of
initialized_.try_wait_for(10s). -/
structure InitBehaviour where
  returned : Bool
  deps_init_called : Bool
  latch_waited : Bool
  deriving DecidableEq, Repr

/-- NodesConfigurationManager::init. -/
def init (s : NCMState) (init_nc : NodesConfiguration)
    (wait_until_initialized : Bool) (latch_wait_result : Bool) :
    InitBehaviour :=
  if s.shutdown_signaled_ then
    { returned := true, deps_init_called := false, latch_waited := false }
  else if wait_until_initialized then
    { returned := latch_wait_result
      deps_init_called := true
      latch_waited := true }
  else
    { returned := true, deps_init_called := true, latch_waited := false }

/-! ### advanceIntermediaryShardStates -/

/-- What the internal completion callback of
advanceIntermediaryShardStates does. The callback never invokes any
caller-supplied callback, so no such action appears here. -/
inductive AdvanceCbAction where
  /-- status was OK or VERSION_MISMATCH: return immediately. -/
  | ignore
  /-- rate-limited error log only: the weak_ptr upgrade failed or
  shutdown was signaled, so no telemetry event is reported. -/
  | logOnly
  /-- rate-limited error log followed by
  reportEvent(ADVANCE_INTERMEDIARY_SHARD_STATES_FAILED). -/
  | logAndReport
  deriving DecidableEq, Repr

/-- The completion lambda passed to update() by
advanceIntermediaryShardStates. ncm_alive and shutdown describe the
weak_ptr upgrade and the shutdown flag when the lambda runs. -/
def advanceIntermediaryCb (ncm_alive shutdown : Bool) (status : Status) :
    AdvanceCbAction :=
  if status == .OK || status == .VERSION_MISMATCH then .ignore
  else if !ncm_alive || shutdown then .logOnly
  else .logAndReport

/-- NodesConfigurationManager::advanceIntermediaryShardStates up to
its call to update(): returns the batch it proposes, or none when it
proposes nothing. update_opt is the result of
tracker_.extractNCUpdate(till_timestamp) (the ShardStateTracker is an
external collaborator). The function mutates no NCM slot: when it does
propose, it only hands the batch to update(), which posts a request. -/
def advanceIntermediaryShardStates (s : NCMState)
    (update_opt : Option (List NodesConfiguration.Update)) :
    Option (List NodesConfiguration.Update) :=
  if !s.mode_.isProposer || s.shutdown_signaled_ then none
  else update_opt

/-- Strict version order between two optional slots: vacuously true
when either is absent. -/
def optVersionLt (a b : Option NodesConfiguration) : Bool :=
  match a, b with
  | some x, some y => x.getVersion < y.getVersion
  | _, _ => true

/-- The pipeline ordering invariant of the spec: local < pending <
staged (pairwise strict) for whichever slots are present. -/
def pipelineInv (s : NCMState) : Bool :=
  optVersionLt s.local_nodes_config_ s.pending_nodes_config_ &&
    optVersionLt s.pending_nodes_config_ s.staged_nodes_config_ &&
    optVersionLt s.local_nodes_config_ s.staged_nodes_config_

end NodesConfigurationManager

/-! ### SequencerWorkflow (logdevice/admin/maintenance) -/

/-- maintenance::SequencingState. The enum lives in
logdevice/admin/maintenance/types.h, which is not among the given
sources; the claim about SequencerWorkflow does not depend on the
constructor list, only on the fields being preserved. -/
inductive SequencingState where
  | ENABLED
  | DISABLED
  | UNKNOWN
  deriving DecidableEq, Repr

/-- maintenance::SequencerWorkflow fields. -/
structure SequencerWorkflow where
  target_op_state_ : SequencingState
  node_ : Nat
  current_sequencing_state_ : SequencingState
  skip_safety_check_ : Bool
  deriving DecidableEq, Repr

/-- SequencerWorkflow::operator=(SequencerWorkflow&&): the body is
just `return *this;` — the right-hand side wf is never read and no
field of *this is written. The returned value models the returned
reference to *this. -/
def SequencerWorkflow.moveAssign (this wf : SequencerWorkflow) :
    SequencerWorkflow :=
  this

/-! ## Theorems -/

open NodesConfigurationManager

/-- A bit surviving a mask still survives after further bits are set
by bitwise or. -/
theorem lor_and_ne_zero (a f c : Nat) (h : a &&& c ≠ 0) :
    (a ||| f) &&& c ≠ 0 := by
  intro hc
  apply h
  apply Nat.zero_of_testBit_eq_false
  intro i
  have hall : ∀ j, ((a ||| f) &&& c).testBit j = false := by
    intro j; rw [hc]; exact Nat.zero_testBit j
  have hi := hall i
  simp only [Nat.testBit_and, Nat.testBit_or, Bool.and_eq_false_iff,
    Bool.or_eq_false_iff] at hi
  simp only [Nat.testBit_and, Bool.and_eq_false_iff]
  rcases hi with h1 | h2
  · exact Or.inl h1.1
  · exact Or.inr h2

/-- C9: the move-assignment operator of SequencerWorkflow ignores its
right-hand side: every field of the assignee is unchanged and the
returned reference is the assignee itself. -/
theorem C9_sequencerWorkflow_moveAssign_ignores_rhs
    (a b : SequencerWorkflow) :
    a.moveAssign b = a ∧
    (a.moveAssign b).node_ = a.node_ ∧
    (a.moveAssign b).target_op_state_ = a.target_op_state_ ∧
    (a.moveAssign b).current_sequencing_state_ =
      a.current_sequencing_state_ ∧
    (a.moveAssign b).skip_safety_check_ = a.skip_safety_check_ :=
  ⟨rfl, rfl, rfl, rfl, rfl⟩

/-- C10: when shutdown has already been signaled, init returns true
immediately: the dependency layer is never handed the initial
configuration and the initialization latch is never waited on (and
hence, since only the posted init request can reach the pipeline, the
three configuration slots stay unchanged). -/
theorem C10_init_after_shutdown_reports_success
    (s : NCMState) (init_nc : NodesConfiguration) (wait latch : Bool)
    (h : s.shutdown_signaled_ = true) :
    init s init_nc wait latch =
      { returned := true, deps_init_called := false,
        latch_waited := false } := by
  simp [init, h]

/-- Witness for C10 at a concrete shut-down state. -/
theorem C10_witness :
    init (NCMState.initial OperationMode.forClient true) emptyNC true false =
      { returned := true, deps_init_called := false,
        latch_waited := false } :=
  C10_init_after_shutdown_reports_success
    (NCMState.initial OperationMode.forClient true) emptyNC true false rfl

/-- C6: gating of the caller-facing update() and overwrite(): shutdown
yields SHUTDOWN, a mode without the Proposer flag makes update() yield
ACCESS, a mode without the Tooling flag makes overwrite() yield
ACCESS, and a null configuration makes overwrite() yield
INVALID_PARAM; in each of these cases the result is callbackOnly, the
constructor that posts no request and never contacts the store. -/
theorem C6_update_overwrite_gating
    (s : NCMState) (updates : List NodesConfiguration.Update)
    (c : Option NodesConfiguration) :
    (s.shutdown_signaled_ = true →
      update s updates = .callbackOnly .SHUTDOWN ∧
      overwrite s c = .callbackOnly .SHUTDOWN) ∧
    (s.shutdown_signaled_ = false → s.mode_.isProposer = false →
      update s updates = .callbackOnly .ACCESS) ∧
    (s.shutdown_signaled_ = false → s.mode_.isTooling = false →
      overwrite s c = .callbackOnly .ACCESS) ∧
    (s.shutdown_signaled_ = false → s.mode_.isTooling = true →
      overwrite s none = .callbackOnly .INVALID_PARAM) := by
  refine ⟨fun h => ⟨?_, ?_⟩, fun h hp => ?_, fun h ht => ?_, fun h ht => ?_⟩
  · simp [update, h]
  · simp [overwrite, h]
  · simp [update, h, hp]
  · simp [overwrite, h, ht]
  · simp [overwrite, h, ht]

/-- Witness for C6 at concrete states: a shut-down NCM and a live
client-mode NCM (neither Proposer nor Tooling). -/
theorem C6_witness :
    update (NCMState.initial OperationMode.forClient true) [] =
      .callbackOnly .SHUTDOWN ∧
    update (NCMState.initial OperationMode.forClient false) [] =
      .callbackOnly .ACCESS ∧
    overwrite (NCMState.initial OperationMode.forClient false) none =
      .callbackOnly .ACCESS ∧
    overwrite (NCMState.initial OperationMode.forTooling false) none =
      .callbackOnly .INVALID_PARAM :=
  ⟨(C6_update_overwrite_gating
      (NCMState.initial OperationMode.forClient true) [] none).1 rfl |>.1,
   (C6_update_overwrite_gating
      (NCMState.initial OperationMode.forClient false) [] none).2.1
      rfl (by decide),
   (C6_update_overwrite_gating
      (NCMState.initial OperationMode.forClient false) [] none).2.2.1
      rfl (by decide),
   (C6_update_overwrite_gating
      (NCMState.initial OperationMode.forTooling false) [] none).2.2.2
      rfl (by decide)⟩

/-- C7: OperationMode validity and Proposer monotonicity: a mode built
from the empty role set is invalid, a mode with both the Client and
Coordinator flags is invalid, forTooling carries the Proposer flag,
and setFlags — the only mutation of the bitset, also underlying
upgradeToProposer — never clears the Proposer flag once set. -/
theorem C7_operationMode_validity_and_proposer_monotonicity :
    (OperationMode.forNodeRoles ⟨false, false⟩).isValid = false ∧
    (∀ m : OperationMode, m.isClient = true → m.isCoordinator = true →
      m.isValid = false) ∧
    OperationMode.forTooling.isProposer = true ∧
    (∀ (m : OperationMode) (flags : Nat), m.isProposer = true →
      (m.setFlags flags).isProposer = true) ∧
    (∀ m : OperationMode, m.upgradeToProposer.isProposer = true) := by
  refine ⟨by decide, fun m hc hco => ?_, by decide, fun m flags hp => ?_,
    fun m => ?_⟩
  · simp [OperationMode.isValid, hc, hco]
  · simp only [OperationMode.isProposer, OperationMode.hasFlags,
      OperationMode.setFlags, bne_iff_ne, ne_eq] at hp ⊢
    exact lor_and_ne_zero _ _ _ hp
  · simp only [OperationMode.upgradeToProposer, OperationMode.isProposer,
      OperationMode.hasFlags, OperationMode.setFlags, bne_iff_ne, ne_eq]
    rw [Nat.lor_comm]
    exact lor_and_ne_zero OperationMode.kIsProposer m.mode_
      OperationMode.kIsProposer (by decide)

/-- Witness for C7: a client mode given the Coordinator flag is
invalid, and forTooling keeps the Proposer flag through a further
setFlags. -/
theorem C7_witness :
    (OperationMode.forClient.setFlags
        OperationMode.kIsCoordinator).isValid = false ∧
    (OperationMode.forTooling.setFlags
        OperationMode.kIsStorageMember).isProposer = true :=
  ⟨C7_operationMode_validity_and_proposer_monotonicity.2.1
      (OperationMode.forClient.setFlags OperationMode.kIsCoordinator)
      (by decide) (by decide),
   C7_operationMode_validity_and_proposer_monotonicity.2.2.2.1
      OperationMode.forTooling OperationMode.kIsStorageMember (by decide)⟩

/-- C8 counterexample: the claim states that on every status other
than OK and VERSION_MISMATCH the internal completion callback reports
the ADVANCE_INTERMEDIARY_SHARD_STATES_FAILED telemetry event; but when
the weak_ptr upgrade fails (NCM already destroyed) the callback
returns right after the rate-limited log, so at status AGAIN with
ncm_alive = false nothing is reported. -/
theorem C8_counterexample :
    advanceIntermediaryCb false false .AGAIN = .logOnly ∧
    advanceIntermediaryCb false false .AGAIN ≠ .logAndReport := by
  decide

/-- C8 (amended): advanceIntermediaryShardStates proposes nothing when
the mode lacks the Proposer flag or shutdown has been signaled, and
otherwise proposes exactly the tracker-extracted batch; its internal
completion callback ignores OK and VERSION_MISMATCH, and on every
other status it performs the rate-limited log and reports the
ADVANCE_INTERMEDIARY_SHARD_STATES_FAILED telemetry event unless the
NCM is gone or shutdown has been signaled; no outcome of the callback
surfaces the error to a caller. -/
theorem C8_advanceIntermediaryShardStates_amended
    (s : NCMState) (upd : Option (List NodesConfiguration.Update))
    (ncm_alive sd : Bool) (st : Status) :
    ((s.mode_.isProposer = false ∨ s.shutdown_signaled_ = true) →
      advanceIntermediaryShardStates s upd = none) ∧
    (s.mode_.isProposer = true → s.shutdown_signaled_ = false →
      advanceIntermediaryShardStates s upd = upd) ∧
    advanceIntermediaryCb ncm_alive sd .OK = .ignore ∧
    advanceIntermediaryCb ncm_alive sd .VERSION_MISMATCH = .ignore ∧
    (st ≠ .OK → st ≠ .VERSION_MISMATCH →
      advanceIntermediaryCb ncm_alive sd st =
        if ncm_alive && !sd then .logAndReport else .logOnly) := by
  refine ⟨fun h => ?_, fun hp hsd => ?_, ?_, ?_, fun h1 h2 => ?_⟩
  · rcases h with h | h <;>
      simp [advanceIntermediaryShardStates, h]
  · simp [advanceIntermediaryShardStates, hp, hsd]
  · cases ncm_alive <;> cases sd <;> rfl
  · cases ncm_alive <;> cases sd <;> rfl
  · have hbeq1 : (st == Status.OK) = false := by
      cases st <;> simp_all
    have hbeq2 : (st == Status.VERSION_MISMATCH) = false := by
      cases st <;> simp_all
    cases ncm_alive <;> cases sd <;>
      simp [advanceIntermediaryCb, hbeq1, hbeq2]

/-- Witness for C8 (amended) at concrete inputs: a live proposer NCM
proposes the extracted batch, a client-mode NCM proposes nothing, and
the callback reports at status FAILED on a live NCM. -/
theorem C8_witness :
    advanceIntermediaryShardStates
        (NCMState.initial OperationMode.forTooling false) (some []) =
      some [] ∧
    advanceIntermediaryShardStates
        (NCMState.initial OperationMode.forClient false) (some []) =
      none ∧
    advanceIntermediaryCb true false .FAILED = .logAndReport :=
  ⟨(C8_advanceIntermediaryShardStates_amended
      (NCMState.initial OperationMode.forTooling false) (some [])
      true false .FAILED).2.1 (by decide) rfl,
   (C8_advanceIntermediaryShardStates_amended
      (NCMState.initial OperationMode.forClient false) (some [])
      true false .FAILED).1 (Or.inl (by decide)),
   by
    have h := (C8_advanceIntermediaryShardStates_amended
      (NCMState.initial OperationMode.forClient false) (some [])
      true false .FAILED).2.2.2.2 (by decide) (by decide)
    simpa using h⟩

/-- C5: maybeProcessStagedConfig never starts a staged-to-pending
transition while a pending configuration exists: with staged empty or
pending occupied it returns the state unchanged and starts no fan-out;
only with staged present and pending empty does it move staged into
pending (leaving staged empty) and start the fan-out on that
configuration. -/
theorem C5_maybeProcessStagedConfig_guard (s : NCMState) :
    ((s.staged_nodes_config_ = none ∨ s.pending_nodes_config_ ≠ none) →
      maybeProcessStagedConfig s = (s, none)) ∧
    (∀ t, s.staged_nodes_config_ = some t →
      s.pending_nodes_config_ = none →
      maybeProcessStagedConfig s =
        ({ s with staged_nodes_config_ := none
                  pending_nodes_config_ := some t }, some t)) := by
  constructor
  · intro h
    rcases hst : s.staged_nodes_config_ with _ | t
    · simp [maybeProcessStagedConfig, hst]
    · rcases hpd : s.pending_nodes_config_ with _ | p
      · rcases h with h | h
        · exact absurd hst (h ▸ by simp)
        · exact absurd hpd h
      · simp [maybeProcessStagedConfig, hst, hpd]
  · intro t hst hpd
    simp [maybeProcessStagedConfig, hst, hpd]

/-- Witness for C5 at concrete states: a state with both staged and
pending set is left unchanged, and a state with only staged moves it
into pending and starts the fan-out. -/
theorem C5_witness :
    maybeProcessStagedConfig
        { mode_ := OperationMode.forTooling
          shutdown_signaled_ := false
          local_nodes_config_ := none
          pending_nodes_config_ := some { version := 4, payload := 0 }
          staged_nodes_config_ := some { version := 5, payload := 0 } } =
      ({ mode_ := OperationMode.forTooling
         shutdown_signaled_ := false
         local_nodes_config_ := none
         pending_nodes_config_ := some { version := 4, payload := 0 }
         staged_nodes_config_ := some { version := 5, payload := 0 } },
        none) ∧
    maybeProcessStagedConfig
        { mode_ := OperationMode.forTooling
          shutdown_signaled_ := false
          local_nodes_config_ := none
          pending_nodes_config_ := none
          staged_nodes_config_ := some { version := 5, payload := 0 } } =
      ({ mode_ := OperationMode.forTooling
         shutdown_signaled_ := false
         local_nodes_config_ := none
         pending_nodes_config_ := some { version := 5, payload := 0 }
         staged_nodes_config_ := none },
        some { version := 5, payload := 0 }) :=
  ⟨(C5_maybeProcessStagedConfig_guard _).1 (Or.inr (by decide)),
   (C5_maybeProcessStagedConfig_guard _).2
      { version := 5, payload := 0 } rfl rfl⟩

/-- C3: with shutdown not signaled, an incoming configuration is
staged exactly when its version strictly exceeds the staged, pending
and local versions (each for whichever slot is present); otherwise
onNewConfig leaves the whole state unchanged; and delivering the same
configuration again is a no-op, so a given version is staged — and
hence published — at most once. -/
theorem C3_onNewConfig_stages_iff_strictly_newer
    (s : NCMState) (nc : NodesConfiguration)
    (hsd : s.shutdown_signaled_ = false) :
    (shouldStageVersion s nc.getVersion = true ↔
      ((∀ t, s.staged_nodes_config_ = some t →
          t.getVersion < nc.getVersion) ∧
       (∀ p, s.pending_nodes_config_ = some p →
          p.getVersion < nc.getVersion) ∧
       (∀ l, s.local_nodes_config_ = some l →
          l.getVersion < nc.getVersion))) ∧
    (shouldStageVersion s nc.getVersion = false → onNewConfig s nc = s) ∧
    onNewConfig (onNewConfig s nc) nc = onNewConfig s nc := by
  obtain ⟨m, sd, lo, pe, st⟩ := s
  simp only at hsd
  subst hsd
  refine ⟨?_, fun h => ?_, ?_⟩
  · rcases st with _ | t <;> rcases pe with _ | p <;> rcases lo with _ | l <;>
      simp [shouldStageVersion, isProcessingEqualOrHigherVersion,
        hasProcessedVersion, and_assoc]
  · simp [onNewConfig, h]
  · by_cases hstage :
      shouldStageVersion ⟨m, false, lo, pe, st⟩ nc.getVersion = true
    · rcases pe with _ | p
      · have h1 :
          onNewConfig ⟨m, false, lo, none, st⟩ nc =
            ⟨m, false, lo, some nc, none⟩ := by
          simp [onNewConfig, hstage, maybeProcessStagedConfig]
        rw [h1]
        have h2 :
            shouldStageVersion
              (⟨m, false, lo, some nc, none⟩ : NCMState) nc.getVersion =
              false := by
          simp [shouldStageVersion, isProcessingEqualOrHigherVersion]
        simp [onNewConfig, h2]
      · have h1 :
          onNewConfig ⟨m, false, lo, some p, st⟩ nc =
            ⟨m, false, lo, some p, some nc⟩ := by
          simp [onNewConfig, hstage, maybeProcessStagedConfig]
        rw [h1]
        have h2 :
            shouldStageVersion
              (⟨m, false, lo, some p, some nc⟩ : NCMState) nc.getVersion =
              false := by
          simp [shouldStageVersion]
        simp [onNewConfig, h2]
    · have h0 :
        shouldStageVersion ⟨m, false, lo, pe, st⟩ nc.getVersion = false := by
        simpa using hstage
      simp [onNewConfig, h0]

/-- Witness for C3 at a concrete state: version 6 is staged over a
local version 3 and an empty pipeline, a redelivery of version 6 is a
no-op, and a stale version is dropped. -/
theorem C3_witness :
    (shouldStageVersion
        { mode_ := OperationMode.forTooling
          shutdown_signaled_ := false
          local_nodes_config_ := some { version := 3, payload := 0 }
          pending_nodes_config_ := none
          staged_nodes_config_ := none } 6 = true) ∧
    onNewConfig
        (onNewConfig
          { mode_ := OperationMode.forTooling
            shutdown_signaled_ := false
            local_nodes_config_ := some { version := 3, payload := 0 }
            pending_nodes_config_ := none
            staged_nodes_config_ := none }
          { version := 6, payload := 1 })
        { version := 6, payload := 1 } =
      onNewConfig
        { mode_ := OperationMode.forTooling
          shutdown_signaled_ := false
          local_nodes_config_ := some { version := 3, payload := 0 }
          pending_nodes_config_ := none
          staged_nodes_config_ := none }
        { version := 6, payload := 1 } :=
  ⟨((C3_onNewConfig_stages_iff_strictly_newer
      { mode_ := OperationMode.forTooling
        shutdown_signaled_ := false
        local_nodes_config_ := some { version := 3, payload := 0 }
        pending_nodes_config_ := none
        staged_nodes_config_ := none }
      { version := 6, payload := 1 } rfl).1).2
      (by decide),
   (C3_onNewConfig_stages_iff_strictly_newer
      { mode_ := OperationMode.forTooling
        shutdown_signaled_ := false
        local_nodes_config_ := some { version := 3, payload := 0 }
        pending_nodes_config_ := none
        staged_nodes_config_ := none }
      { version := 6, payload := 1 } rfl).2.2⟩

/-- C4: the strict ordering local.version < pending.version <
staged.version (for whichever slots are present) holds in the all-empty
initial state and is preserved by onNewConfig, by
maybeProcessStagedConfig and by every successful onProcessingFinished
transition. -/
theorem C4_pipeline_ordering_invariant :
    (∀ (m : OperationMode) (sd : Bool),
      pipelineInv (NCMState.initial m sd) = true) ∧
    (∀ (s : NCMState) (nc : NodesConfiguration),
      pipelineInv s = true → pipelineInv (onNewConfig s nc) = true) ∧
    (∀ s : NCMState,
      pipelineInv s = true →
        pipelineInv (maybeProcessStagedConfig s).1 = true) ∧
    (∀ (s : NCMState) (nc : NodesConfiguration) (s2 : NCMState),
      pipelineInv s = true → onProcessingFinished s nc = some s2 →
        pipelineInv s2 = true) := by
  have hmaybe : ∀ s : NCMState,
      pipelineInv s = true →
        pipelineInv (maybeProcessStagedConfig s).1 = true := by
    rintro ⟨m, sd, lo, pe, st⟩ h
    rcases st with _ | t <;> rcases pe with _ | p <;> rcases lo with _ | l <;>
      simp_all [pipelineInv, optVersionLt, maybeProcessStagedConfig]
  refine ⟨?_, ?_, hmaybe, ?_⟩
  · intro m sd
    rfl
  · rintro ⟨m, sd, lo, pe, st⟩ nc h
    by_cases hsd : sd = true
    · subst hsd
      simpa [onNewConfig] using h
    · replace hsd : sd = false := by simpa using hsd
      subst hsd
      by_cases hstage :
        shouldStageVersion ⟨m, false, lo, pe, st⟩ nc.getVersion = true
      · have h1 :
          onNewConfig ⟨m, false, lo, pe, st⟩ nc =
            (maybeProcessStagedConfig ⟨m, false, lo, pe, some nc⟩).1 := by
          simp [onNewConfig, hstage]
        rw [h1]
        apply hmaybe
        have hlo : ∀ l, lo = some l → l.getVersion < nc.getVersion := by
          intro l hl
          subst hl
          simp [shouldStageVersion, hasProcessedVersion] at hstage
          tauto
        have hpe : ∀ p, pe = some p → p.getVersion < nc.getVersion := by
          intro p hp
          subst hp
          simp [shouldStageVersion, isProcessingEqualOrHigherVersion]
            at hstage
          tauto
        rcases pe with _ | p <;> rcases lo with _ | l <;>
          simp_all [pipelineInv, optVersionLt]
      · have h0 :
          shouldStageVersion ⟨m, false, lo, pe, st⟩ nc.getVersion =
            false := by
          simpa using hstage
        simpa [onNewConfig, h0] using h
  · rintro ⟨m, sd, lo, pe, st⟩ nc s2 h hfin
    rcases pe with _ | p
    · simp [onProcessingFinished] at hfin
    · by_cases hv : nc.getVersion == p.getVersion
      · by_cases hproc :
          hasProcessedVersion ⟨m, sd, lo, some p, st⟩ nc.getVersion = true
        · simp [onProcessingFinished, hv, hproc] at hfin
        · have hfin2 :
            s2 = (maybeProcessStagedConfig ⟨m, sd, some p, none, st⟩).1 := by
            simp [onProcessingFinished, hv,
              Bool.eq_false_iff.mpr hproc] at hfin
            exact hfin.symm
          subst hfin2
          apply hmaybe
          rcases st with _ | t <;> rcases lo with _ | l <;>
            simp_all [pipelineInv, optVersionLt]
      · simp [onProcessingFinished, hv] at hfin

/-- Witness for C4 at concrete states: staging version 6 over local
version 3 preserves the invariant, as does finishing the processing of
a pending version 4 atop a local version 3. -/
theorem C4_witness :
    pipelineInv
        (onNewConfig
          { mode_ := OperationMode.forTooling
            shutdown_signaled_ := false
            local_nodes_config_ := some { version := 3, payload := 0 }
            pending_nodes_config_ := none
            staged_nodes_config_ := none }
          { version := 6, payload := 1 }) = true ∧
    pipelineInv
        { mode_ := OperationMode.forTooling
          shutdown_signaled_ := false
          local_nodes_config_ := some { version := 4, payload := 0 }
          pending_nodes_config_ := none
          staged_nodes_config_ := none } =
      true :=
  ⟨C4_pipeline_ordering_invariant.2.1
      { mode_ := OperationMode.forTooling
        shutdown_signaled_ := false
        local_nodes_config_ := some { version := 3, payload := 0 }
        pending_nodes_config_ := none
        staged_nodes_config_ := none }
      { version := 6, payload := 1 } (by decide),
   C4_pipeline_ordering_invariant.2.2.2
      { mode_ := OperationMode.forTooling
        shutdown_signaled_ := false
        local_nodes_config_ := some { version := 3, payload := 0 }
        pending_nodes_config_ := some { version := 4, payload := 0 }
        staged_nodes_config_ := none }
      { version := 4, payload := 0 } _ (by decide) rfl⟩

/-- C2: the store-CAS completion callback: on VERSION_MISMATCH with a
usable stored version and blob, the blob is deserialized, the decoded
configuration is forwarded to the pipeline (unless the NCM is gone or
shutdown-signaled) and the callback gets (VERSION_MISMATCH,
stored_nc); on any other non-OK status — including VERSION_MISMATCH
without a usable stored blob — the callback gets (status, null) and
nothing is forwarded; on OK the proposed configuration is forwarded
the same way and the callback gets (OK, new_config). -/
theorem C2_store_cas_callback_cases
    (de : Blob → Option NodesConfiguration) (ncm_alive sd : Bool)
    (new_config : NodesConfiguration) (status : Status)
    (stored_version : Nat) (stored_data : Blob) :
    (status = .VERSION_MISMATCH → stored_version ≠ EMPTY_VERSION →
      stored_data ≠ [] → ∀ snc, de stored_data = some snc →
        onStoreUpdateConfigResult de ncm_alive sd new_config status
            stored_version stored_data =
          some { posted_to_ncm :=
                   if ncm_alive && !sd then some snc else none
                 cb_status := .VERSION_MISMATCH
                 cb_nc := some snc }) ∧
    (status ≠ .OK →
      (status = .VERSION_MISMATCH →
        stored_version = EMPTY_VERSION ∨ stored_data = []) →
      onStoreUpdateConfigResult de ncm_alive sd new_config status
          stored_version stored_data =
        some { posted_to_ncm := none, cb_status := status,
               cb_nc := none }) ∧
    (status = .OK →
      onStoreUpdateConfigResult de ncm_alive sd new_config status
          stored_version stored_data =
        some { posted_to_ncm :=
                 if ncm_alive && !sd then some new_config else none
               cb_status := .OK
               cb_nc := some new_config }) := by
  refine ⟨fun h1 h2 h3 snc hde => ?_, fun h1 h2 => ?_, fun h1 => ?_⟩
  · subst h1
    rcases stored_data with _ | ⟨b, bs⟩
    · exact absurd rfl h3
    · simp [onStoreUpdateConfigResult, h2, hde]
  · by_cases hvm : status = Status.VERSION_MISMATCH
    · rcases h2 hvm with hv | hv <;> subst hvm
      · simp [onStoreUpdateConfigResult, hv, EMPTY_VERSION]
      · simp [onStoreUpdateConfigResult, hv]
    · have hbeq : (status == Status.VERSION_MISMATCH) = false := by
        simpa using hvm
      have hbeq2 : (status != Status.OK) = true := by
        simpa using h1
      simp [onStoreUpdateConfigResult, hbeq, hbeq2]
  · subst h1
    simp [onStoreUpdateConfigResult]

/-- Witness for C2 at concrete inputs: a lost CAS against stored
version 9 forwards and returns the stored configuration, and a
transient AGAIN just fails the callback. -/
theorem C2_witness :
    onStoreUpdateConfigResult
        (fun _ => some { version := 9, payload := 7 }) true false
        { version := 8, payload := 0 } .VERSION_MISMATCH 9 [1, 2] =
      some { posted_to_ncm := some { version := 9, payload := 7 }
             cb_status := .VERSION_MISMATCH
             cb_nc := some { version := 9, payload := 7 } } ∧
    onStoreUpdateConfigResult
        (fun _ => some { version := 9, payload := 7 }) true false
        { version := 8, payload := 0 } .AGAIN 0 [] =
      some { posted_to_ncm := none, cb_status := .AGAIN,
             cb_nc := none } := by
  constructor
  · have h := (C2_store_cas_callback_cases
      (fun _ => some { version := 9, payload := 7 }) true false
      { version := 8, payload := 0 } .VERSION_MISMATCH 9 [1, 2]).1
      rfl (by decide) (by decide) { version := 9, payload := 7 } rfl
    simpa using h
  · exact (C2_store_cas_callback_cases
      (fun _ => some { version := 9, payload := 7 }) true false
      { version := 8, payload := 0 } .AGAIN 0 []).2.1
      (by decide) (by intro h; cases h)

/-- C1: onUpdateRequest in proposer mode bases the proposal on the
maximum-version configuration among local, pending and staged (an
empty NC when all three are absent), applies the batch left-to-right
through applyUpdatesFold — failing over to callback(err, null) with no
store write on the first failed update — and on success sets the new
version to exactly base_version + 1 (whatever the batch length) and
issues the store write with expected base base_version. -/
theorem C1_onUpdateRequest_base_apply_and_version
    (au : NodesConfiguration → NodesConfiguration.Update →
        Except Status NodesConfiguration)
    (se : NodesConfiguration → Blob) (serialize_err : Status)
    (s : NCMState) (us : List NodesConfiguration.Update)
    (base : NodesConfiguration)
    (hne : us ≠ []) (hp : s.mode_.isProposer = true)
    (hbase : base = getLatestKnownConfig s) :
    ((∀ l, s.local_nodes_config_ = some l →
        l.getVersion ≤ base.getVersion) ∧
     (∀ p, s.pending_nodes_config_ = some p →
        p.getVersion ≤ base.getVersion) ∧
     (∀ t, s.staged_nodes_config_ = some t →
        t.getVersion ≤ base.getVersion) ∧
     (s.local_nodes_config_ = some base ∨
      s.pending_nodes_config_ = some base ∨
      s.staged_nodes_config_ = some base ∨
      (s.local_nodes_config_ = none ∧ s.pending_nodes_config_ = none ∧
       s.staged_nodes_config_ = none ∧ base = emptyNC))) ∧
    (∀ e, applyUpdatesFold au base us = .error e →
      onUpdateRequest au se serialize_err s us = .callbackOnly e) ∧
    (∀ nc, applyUpdatesFold au base us = .ok nc →
      (nc.withVersion (base.getVersion + 1)).getVersion =
        base.getVersion + 1 ∧
      ((se (nc.withVersion (base.getVersion + 1))).isEmpty = false →
        onUpdateRequest au se serialize_err s us =
          .storeWrite (se (nc.withVersion (base.getVersion + 1)))
            base.getVersion (nc.withVersion (base.getVersion + 1)))) := by
  subst hbase
  refine ⟨?_, fun e he => ?_, fun nc hnc => ?_⟩
  · obtain ⟨m, sd, lo, pe, st⟩ := s
    rcases st with _ | t <;> rcases pe with _ | p <;> rcases lo with _ | l <;>
      simp [getLatestKnownConfig, maxNC, NodesConfiguration.getVersion] <;>
      (try split_ifs) <;>
      (try simp_all [maxNC, NodesConfiguration.getVersion]) <;>
      (try split_ifs) <;>
      (try simp_all [maxNC, NodesConfiguration.getVersion]) <;>
      omega
  · simp only [onUpdateRequest, hp, Bool.not_true, Bool.false_eq_true,
      if_false, he]
  · refine ⟨rfl, fun hser => ?_⟩
    simp only [onUpdateRequest, hp, Bool.not_true, Bool.false_eq_true,
      if_false, hnc, hser, Bool.false_eq_true]

/-- Witness for C1 at a concrete proposer state: the base is the
staged version 5 configuration (above local 3), the single update
applies, and the store write is issued with new version 6 and expected
base version 5. -/
theorem C1_witness :
    onUpdateRequest
        (fun nc u => .ok { version := nc.version + 1,
                           payload := nc.payload + u.id })
        (fun nc => [nc.version]) .BADMSG
        { mode_ := OperationMode.forTooling
          shutdown_signaled_ := false
          local_nodes_config_ := some { version := 3, payload := 0 }
          pending_nodes_config_ := none
          staged_nodes_config_ := some { version := 5, payload := 1 } }
        [{ id := 10 }] =
      .storeWrite [6] 5 { version := 6, payload := 11 } := by
  have h := ((C1_onUpdateRequest_base_apply_and_version
    (fun nc u => .ok { version := nc.version + 1,
                       payload := nc.payload + u.id })
    (fun nc => [nc.version]) .BADMSG
    { mode_ := OperationMode.forTooling
      shutdown_signaled_ := false
      local_nodes_config_ := some { version := 3, payload := 0 }
      pending_nodes_config_ := none
      staged_nodes_config_ := some { version := 5, payload := 1 } }
    [{ id := 10 }] { version := 5, payload := 1 }
    (by decide) (by decide) rfl).2.2
    { version := 6, payload := 11 } rfl).2 rfl
  simpa using h

end LogDevice
